import Mathlib

/-!
Verification of the bootstrap and cross-process sharing layer of the
trinity chain node (file trinity/chains/__init__.py).

The development shallowly embeds the module: pure helpers become Lean
functions, filesystem- and database-touching procedures become explicit
state passing over small state records, and Python exceptions become
Except values.  Collaborators that live outside the module (the eth
constants, the ChainConfig object, the xdg helper, the Python standard
library) are modelled from the specification and marked as such in
their doc comments.
-/

/-! ## Hex decoding (collaborator eth_utils.decode_hex) -/

/-- Numeric value of one hex digit, if the character is one. -/
def hexVal (c : Char) : Option Nat :=
  if '0' ≤ c && c ≤ '9' then some (c.toNat - 48)
  else if 'a' ≤ c && c ≤ 'f' then some (c.toNat - 87)
  else if 'A' ≤ c && c ≤ 'F' then some (c.toNat - 55)
  else none

/-- Decode a list of hex digits, two per byte; fails on an odd count or a
non-hex character. -/
def decodeHexChars : List Char → Option (List Nat)
  | [] => some []
  | [_] => none
  | c1 :: c2 :: rest =>
    match hexVal c1, hexVal c2, decodeHexChars rest with
    | some h1, some h2, some bs => some ((16 * h1 + h2) :: bs)
    | _, _, _ => none

/-- Drop a leading 0x marker, as eth_utils removes it before unhexlifying. -/
def strip0x (s : String) : List Char :=
  match s.toList with
  | '0' :: 'x' :: rest => rest
  | l => l

/-- Modelled from the spec: collaborator eth_utils.decode_hex, which turns a
hex string (with or without a 0x marker) into a byte sequence and fails on
malformed input. -/
def decode_hex (s : String) : Option (List Nat) :=
  decodeHexChars (strip0x s)

/-! ## Collaborator constants from the eth library -/

/-- Modelled from the spec: eth.constants.ZERO_HASH32, the zero 32-byte hash. -/
def ZERO_HASH32 : List Nat := List.replicate 32 0

/-- Modelled from the spec: eth.constants.BLANK_ROOT_HASH, the blank-root
constant (root hash of an empty trie). -/
def BLANK_ROOT_HASH : List Nat :=
  (decode_hex "0x56e81f171bcc55a6ff8345e692c0f86e5b48e01b996cadc001622fb5e363b421").getD []

/-- Modelled from the spec: eth.constants.EMPTY_UNCLE_HASH, the hash of the
empty uncle list. -/
def EMPTY_UNCLE_HASH : List Nat :=
  (decode_hex "0x1dcc4de8dec75d7aab85b567b6ccd41ad312451b948a7413f0a142fd40d49347").getD []

/-- Byte value of the fixed documented state root literal
0xd7f8974fb5ac78d9ac099b9ad5018bedc2ce0a72dad1827a1709da30580f0544. -/
def GENESIS_STATE_ROOT : List Nat :=
  [0xd7, 0xf8, 0x97, 0x4f, 0xb5, 0xac, 0x78, 0xd9,
   0xac, 0x09, 0x9b, 0x9a, 0xd5, 0x01, 0x8b, 0xed,
   0xc2, 0xce, 0x0a, 0x72, 0xda, 0xd1, 0x82, 0x7a,
   0x17, 0x09, 0xda, 0x30, 0x58, 0x0f, 0x05, 0x44]

/-! ## Block headers (collaborator eth.rlp.headers.BlockHeader) -/

/-- Modelled from the spec: the BlockHeader record, with the fields the
module sets when it builds a genesis header.  Machine-word fields are
Nat, hash and byte-string fields are byte lists. -/
structure BlockHeader where
  difficulty : Nat
  extra_data : List Nat
  gas_limit : Nat
  gas_used : Nat
  bloom : Nat
  mix_hash : List Nat
  nonce : List Nat
  block_number : Nat
  parent_hash : List Nat
  receipt_root : List Nat
  uncles_hash : List Nat
  state_root : List Nat
  timestamp : Nat
  transaction_root : List Nat
deriving DecidableEq, Repr

/-! ## Genesis config (the raw decoded JSON dictionary) -/

/-- The decoded genesis JSON config.  Each required key is an Option field:
none models the key being absent from the dictionary. -/
structure GenesisConfig where
  chainId : Option String
  difficulty : Option Nat
  gasLimit : Option Nat
  nonce : Option (List Nat)
  extraData : Option (List Nat)
deriving DecidableEq, Repr

/-- Modelled from the spec: eth_utils.ValidationError, carrying its message. -/
structure ValidationError where
  msg : String
deriving DecidableEq, Repr

/-- Checks that all required genesis config parameters are present, in the
source's order, raising ValidationError naming the first missing key
(is_valid_genesis_header in the source). -/
def is_valid_genesis_header (genesis : GenesisConfig) : Except ValidationError Bool :=
  if genesis.chainId.isNone then
    .error ⟨"genesis config missing required \x27chainId\x27"⟩
  else if genesis.difficulty.isNone then
    .error ⟨"genesis config missing required \x27difficulty\x27"⟩
  else if genesis.gasLimit.isNone then
    .error ⟨"genesis config missing required \x27gasLimit\x27"⟩
  else if genesis.nonce.isNone then
    .error ⟨"genesis config missing required \x27nonce\x27"⟩
  else if genesis.extraData.isNone then
    .error ⟨"genesis config missing required \x27extraData\x27"⟩
  else
    .ok true

/-- Failures get_genesis_header can raise: a KeyError from a dictionary
lookup, or a NameError from an unbound name reference. -/
inductive GenesisEvalError where
  | keyError (key : String)
  | nameError (name : String)
deriving DecidableEq, Repr

/-- get_genesis_header from the source.  Its docstring promises the genesis
config wrapped as a BlockHeader with the chain's network id, but the body
references the bare name constants five times while the module only
imports eth.constants, a statement that binds the name eth — so the
reference is unbound.  Arguments of the BlockHeader call go left to right:
the difficulty, extraData and gasLimit lookups can raise KeyError, and
then the mix_hash argument raises NameError on constants, unconditionally,
before the remaining arguments or the chainId decode are reached.  The
function can therefore never return a header. -/
def get_genesis_header (genesis : GenesisConfig) :
    Except GenesisEvalError (BlockHeader × List Nat) :=
  match genesis.difficulty with
  | none => .error (.keyError "difficulty")
  | some _ =>
    match genesis.extraData with
    | none => .error (.keyError "extraData")
    | some _ =>
      match genesis.gasLimit with
      | none => .error (.keyError "gasLimit")
      | some _ => .error (.nameError "constants")

/-! ## Network identities and their fixed genesis headers (collaborators
from eth.chains.mainnet / eth.chains.ropsten) -/

/-- Modelled from the spec: eth.chains.mainnet.MAINNET_NETWORK_ID. -/
def MAINNET_NETWORK_ID : Nat := 1

/-- Modelled from the spec: eth.chains.ropsten.ROPSTEN_NETWORK_ID. -/
def ROPSTEN_NETWORK_ID : Nat := 3

/-- Modelled from the spec: the fixed mainnet genesis header constant. -/
def MAINNET_GENESIS_HEADER : BlockHeader :=
  { difficulty := 17179869184
    extra_data := (decode_hex
      "0x11bbe8db4e347b4e8c937c1c8370e4b5ed33adb3db69cbdb7a38e1e50b1b82fa").getD []
    gas_limit := 5000
    gas_used := 0
    bloom := 0
    mix_hash := ZERO_HASH32
    nonce := (decode_hex "0x0000000000000042").getD []
    block_number := 0
    parent_hash := ZERO_HASH32
    receipt_root := BLANK_ROOT_HASH
    uncles_hash := EMPTY_UNCLE_HASH
    state_root := GENESIS_STATE_ROOT
    timestamp := 0
    transaction_root := BLANK_ROOT_HASH }

/-- Modelled from the spec: the fixed ropsten genesis header constant. -/
def ROPSTEN_GENESIS_HEADER : BlockHeader :=
  { difficulty := 1048576
    extra_data := (decode_hex
      "0x3535353535353535353535353535353535353535353535353535353535353535").getD []
    gas_limit := 16777216
    gas_used := 0
    bloom := 0
    mix_hash := ZERO_HASH32
    nonce := (decode_hex "0x0000000000000042").getD []
    block_number := 0
    parent_hash := ZERO_HASH32
    receipt_root := BLANK_ROOT_HASH
    uncles_hash := EMPTY_UNCLE_HASH
    state_root := (decode_hex
      "0x217b0bbcfb72e2d57e28f33cb361b9983513177755dc3f33ce3e7022ed62b77b").getD []
    timestamp := 0
    transaction_root := BLANK_ROOT_HASH }

/-! ## Filesystem model

Paths are component lists; the filesystem records which directories exist
and the contents of each plain file. -/

/-- A filesystem state: directories that exist, and files with contents.
File lookup takes the first (most recent) entry for a path. -/
structure FS where
  dirs : List (List String)
  files : List (List String × List Nat)
deriving DecidableEq, Repr

/-- Does the path exist, as a directory or as a file (os.path.exists)? -/
def FS.path_exists (fs : FS) (p : List String) : Bool :=
  fs.dirs.contains p || (fs.files.map Prod.fst).contains p

/-- Contents of the file at a path, when one exists. -/
def FS.lookupFile (fs : FS) (p : List String) : Option (List Nat) :=
  fs.files.lookup p

/-- Create a directory (mkdir with parents=True, exist_ok=True / os.makedirs).
Parent entries are not tracked: the module only probes the full paths it
creates. -/
def FS.mkdirp (fs : FS) (p : List String) : FS :=
  { fs with dirs := p :: fs.dirs }

/-- Path.touch: create an empty file when the path has none, otherwise
leave the contents alone. -/
def FS.touch (fs : FS) (p : List String) : FS :=
  if (fs.lookupFile p).isSome then fs
  else { fs with files := (p, []) :: fs.files }

/-- Open for writing and write the given bytes, replacing any previous
contents at the path. -/
def FS.write (fs : FS) (p : List String) (bs : List Nat) : FS :=
  { fs with files := (p, bs) :: fs.files }

/-! ## ChainConfig (collaborator trinity.config.ChainConfig) -/

/-- Modelled from the spec: the node filesystem layout and chain
configuration.  baseDataDir, the numeric network identity, the custom
genesis header carried by a private identity, and an optional explicitly
supplied node key (the source's comment: a None nodekey path means an
explicitly defined nodekey). -/
structure ChainConfig where
  data_dir : List String
  network_id : Nat
  genesis_header : BlockHeader
  nodekey_explicit : Option (List Nat)
deriving DecidableEq, Repr

/-- Modelled from the spec: the database directory of the layout,
baseDataDir/database. -/
def ChainConfig.database_dir (cfg : ChainConfig) : List String :=
  cfg.data_dir ++ ["database"]

/-- Modelled from the spec: the log directory of the layout,
baseDataDir/logs. -/
def ChainConfig.logdir_path (cfg : ChainConfig) : List String :=
  cfg.data_dir ++ ["logs"]

/-- Modelled from the spec: the log file of the layout, inside logDir. -/
def ChainConfig.logfile_path (cfg : ChainConfig) : List String :=
  cfg.data_dir ++ ["logs", "trinity.log"]

/-- Modelled from the spec: the configured nodekey path.  None exactly when
the nodekey is explicitly defined; otherwise the default location
baseDataDir/nodekey. -/
def ChainConfig.nodekey_path (cfg : ChainConfig) : Option (List String) :=
  match cfg.nodekey_explicit with
  | some _ => none
  | none => some (cfg.data_dir ++ ["nodekey"])

/-- Modelled from the spec: the loaded nodekey value.  The explicitly
defined key when one is configured, else the bytes of the file at the
configured nodekey path, else none. -/
def ChainConfig.nodekey (cfg : ChainConfig) (fs : FS) : Option (List Nat) :=
  match cfg.nodekey_explicit with
  | some k => some k
  | none =>
    match cfg.nodekey_path with
    | some p => fs.lookupFile p
    | none => none

/-! ## xdg managed root (collaborator trinity.utils.xdg) -/

/-- Modelled from the spec: the recognized default managed root under which
missing directories may be auto-created. -/
def XDG_TRINITY_ROOT : List String := ["home", "user", ".local", "share", "trinity"]

/-- Modelled from the spec: is_under_xdg_trinity_root, the managed-root
test — the path lies under the recognized default root. -/
def is_under_xdg_trinity_root (p : List String) : Bool :=
  XDG_TRINITY_ROOT.isPrefixOf p

/-! ## Data-dir bootstrap (initialize_data_dir in the source) -/

/-- Modelled from the spec: trinity exception MissingPath, carrying a
message and the missing path. -/
structure MissingPath where
  msg : String
  path : List String
deriving DecidableEq, Repr

/-- First step of initialize_data_dir: the base chain directory.  Created
recursively when missing and under the managed root; a missing unmanaged
base directory raises MissingPath. -/
def init_base_dir (cfg : ChainConfig) (fs : FS) : Except MissingPath FS :=
  if !(fs.path_exists cfg.data_dir) && is_under_xdg_trinity_root cfg.data_dir then
    .ok (fs.mkdirp cfg.data_dir)
  else if !(fs.path_exists cfg.data_dir) then
    .error ⟨"The base chain directory provided does not exist", cfg.data_dir⟩
  else
    .ok fs

/-- Second step of initialize_data_dir: the log directory and file.  When
the log directory is missing and under the managed root it is created and
the log file touched; a missing unmanaged log directory raises
MissingPath; an existing log directory is left alone. -/
def init_log_dir (cfg : ChainConfig) (fs : FS) : Except MissingPath FS :=
  if !(fs.path_exists cfg.logdir_path) && is_under_xdg_trinity_root cfg.logdir_path then
    .ok ((fs.mkdirp cfg.logdir_path).touch cfg.logfile_path)
  else if !(fs.path_exists cfg.logdir_path) then
    .error ⟨"The base logging directory provided does not exist", cfg.logdir_path⟩
  else
    .ok fs

/-- Last steps of initialize_data_dir: the database directory is always
created, and a fresh nodekey is generated and written exactly when the
loaded nodekey is None.  A None nodekey path together with a None nodekey
cannot arise (a None path means an explicit key); the branch is modelled
as a no-op. -/
def init_rest (cfg : ChainConfig) (freshKey : List Nat) (fs2 : FS) : FS :=
  if (cfg.nodekey (fs2.mkdirp cfg.database_dir)).isNone then
    match cfg.nodekey_path with
    | some p => (fs2.mkdirp cfg.database_dir).write p freshKey
    | none => fs2.mkdirp cfg.database_dir
  else
    fs2.mkdirp cfg.database_dir

/-- initialize_data_dir from the source: base dir rule, log dir rule, then
the database dir and nodekey steps, which never fail.  The fresh key
produced by p2p.ecies.generate_privkey is passed in as freshKey. -/
def initialize_data_dir (cfg : ChainConfig) (freshKey : List Nat) (fs : FS) :
    Except MissingPath FS :=
  match init_base_dir cfg fs with
  | .error e => .error e
  | .ok fs1 =>
    match init_log_dir cfg fs1 with
    | .error e => .error e
    | .ok fs2 => .ok (init_rest cfg freshKey fs2)

/-! ## Chain database (collaborator contract of §6) and its bootstrap -/

/-- Failures a chain database read can produce: the specific no-canonical-
head condition, or any other failure. -/
inductive DBError where
  | canonicalHeadNotFound
  | other (msg : String)
deriving DecidableEq, Repr

/-- Modelled from the spec: the chain database collaborator.  It tracks an
optional canonical head, the log of persisted headers, and an optional
fault that makes reads fail with an error other than
CanonicalHeadNotFound. -/
structure AsyncChainDB where
  canonical_head : Option BlockHeader
  headers : List BlockHeader
  fault : Option String
deriving DecidableEq, Repr

/-- Modelled from the spec: get_canonical_head of the collaborator contract
— the canonical head, CanonicalHeadNotFound when the chain database is
empty, and any other failure when the database is faulty. -/
def AsyncChainDB.get_canonical_head (db : AsyncChainDB) : Except DBError BlockHeader :=
  match db.fault with
  | some s => .error (.other s)
  | none =>
    match db.canonical_head with
    | none => .error .canonicalHeadNotFound
    | some h => .ok h

/-- Modelled from the spec: persist_header of the collaborator contract —
record the header and make it the canonical head. -/
def AsyncChainDB.persist_header (db : AsyncChainDB) (h : BlockHeader) : AsyncChainDB :=
  { db with canonical_head := some h, headers := db.headers ++ [h] }

/-- is_database_initialized from the source: read the canonical head,
converting only CanonicalHeadNotFound into false; a successful read gives
true and any other failure propagates. -/
def is_database_initialized (chaindb : AsyncChainDB) : Except DBError Bool :=
  match chaindb.get_canonical_head with
  | .ok _ => .ok true
  | .error .canonicalHeadNotFound => .ok false
  | .error e => .error e

/-- initialize_database from the source: on CanonicalHeadNotFound persist
the genesis header selected by the network id (ropsten, mainnet, or the
config's custom genesis header); a database with a canonical head is left
untouched, and any other read failure propagates. -/
def initialize_database (chain_config : ChainConfig) (chaindb : AsyncChainDB) :
    Except DBError AsyncChainDB :=
  match chaindb.get_canonical_head with
  | .ok _ => .ok chaindb
  | .error .canonicalHeadNotFound =>
    if chain_config.network_id = ROPSTEN_NETWORK_ID then
      .ok (chaindb.persist_header ROPSTEN_GENESIS_HEADER)
    else if chain_config.network_id = MAINNET_NETWORK_ID then
      .ok (chaindb.persist_header MAINNET_GENESIS_HEADER)
    else
      .ok (chaindb.persist_header chain_config.genesis_header)
  | .error e => .error e

/-! ## Exception forwarding (TracebackRecorder and friends in the source) -/

/-- A cause slot of an exception: either the lightweight RemoteTraceback
marker carrying only the remote trace text, or some other cause. -/
inductive PyCause where
  | remoteTraceback (tb : String)
  | otherCause (desc : String)
deriving DecidableEq, Repr

/-- A Python exception as the forwarding layer observes it: its exact type
name, its message, any further attributes (payload), and the cause slot. -/
structure PyExc where
  ty : String
  msg : String
  payload : List (String × String)
  cause : Option PyCause
deriving DecidableEq, Repr

/-- Modelled from the spec: the Python standard library collaborator
traceback.format_exception — the frame lines of the traceback followed by
the final type-and-message line. -/
def format_exception (ty msg : String) (frames : List String) : List String :=
  frames ++ [ty ++ ": " ++ msg ++ "\n"]

/-- The transportable container: the original exception and its stack
trace formatted to text the way the constructor of
ChainedExceptionWithTraceback formats it. -/
structure ChainedExceptionWithTraceback where
  exc : PyExc
  tb : String
deriving DecidableEq, Repr

/-- The constructor of ChainedExceptionWithTraceback: record the original
exception and the join of its formatted trace wrapped in the quote
decoration of the source. -/
def ChainedExceptionWithTraceback.make (e : PyExc) (frames : List String) :
    ChainedExceptionWithTraceback :=
  { exc := e
    tb := "\n\"\"\"\n" ++ String.join (format_exception e.ty e.msg frames) ++ "\"\"\"" }

/-- The reduce hook of the container: pickling it transports the embedded
exception and the trace text, to be rebuilt by rebuild_exc on the
receiving side. -/
def ChainedExceptionWithTraceback.reduce (c : ChainedExceptionWithTraceback) :
    PyExc × String :=
  (c.exc, c.tb)

/-- rebuild_exc from the source: set the cause of the transported exception
to a RemoteTraceback holding the trace text and return the exception. -/
def rebuild_exc (exc : PyExc) (tb : String) : PyExc :=
  { exc with cause := some (.remoteTraceback tb) }

/-- Deserializing a pickled container: apply rebuild_exc to the pair the
reduce hook produced. -/
def pickle_roundtrip (c : ChainedExceptionWithTraceback) : PyExc :=
  rebuild_exc c.reduce.1 c.reduce.2

/-- An attribute of a wrapped resource, before the adapter looks at it: a
plain value, or a callable with its inspect.ismethod status.  A call takes
an argument and either returns a value or raises an exception together
with the traceback frames attached to it. -/
inductive RAttr (α β : Type) where
  | value (v : β)
  | call ( is_method : Bool) (f : α → Except (PyExc × List String) β)

/-- What reading an attribute through the adapter yields: the plain value,
the callable returned unchanged (not a bound method, so not wrapped), or
the error-wrapping closure whose raises are transportable containers. -/
inductive GotAttr (α β : Type) where
  | value (v : β)
  | rawCall (f : α → Except (PyExc × List String) β)
  | wrapped (f : α → Except ChainedExceptionWithTraceback β)

/-- record_traceback_on_error from the source: pass a normal return
through, and convert a raise into a ChainedExceptionWithTraceback built
from the exception and its traceback. -/
def record_traceback_on_error {α β : Type} (attr : α → Except (PyExc × List String) β) :
    α → Except ChainedExceptionWithTraceback β :=
  fun x =>
    match attr x with
    | .ok v => .ok v
    | .error (e, frames) => .error (ChainedExceptionWithTraceback.make e frames)

/-- A wrapped resource: its attributes by name. -/
def Resource (α β : Type) : Type := String → Option (RAttr α β)

/-- The getattr hook of TracebackRecorder: delegate the lookup, return a
non-method attribute unchanged, and wrap a bound method with
record_traceback_on_error. -/
def TracebackRecorder.getattr {α β : Type} (obj : Resource α β) (name : String) :
    Option (GotAttr α β) :=
  (obj name).map fun attr =>
    match attr with
    | .value v => .value v
    | .call false f => .rawCall f
    | .call true f => .wrapped (record_traceback_on_error f)

/-! ## Concrete fixtures used to evaluate the development on closed inputs -/

/-- An empty filesystem. -/
def fs0 : FS := { dirs := [], files := [] }

/-- A chain configuration for the mainnet identity whose base directory is
not under the managed root. -/
def cfg7 : ChainConfig :=
  { data_dir := ["srv", "node"]
    network_id := 1
    genesis_header := MAINNET_GENESIS_HEADER
    nodekey_explicit := none }

/-- A layout whose base and log directories both exist (not under the
managed root) and whose log file is absent. -/
def cfg6 : ChainConfig :=
  { data_dir := ["opt", "chain"]
    network_id := 1
    genesis_header := MAINNET_GENESIS_HEADER
    nodekey_explicit := none }

/-- The filesystem for cfg6: both directories present, no files. -/
def fs6 : FS :=
  { dirs := [["opt", "chain"], ["opt", "chain", "logs"]], files := [] }

/-- What the bootstrap produces on cfg6 and fs6: the database directory and
a fresh nodekey, but no log file. -/
def fs6r : FS :=
  { dirs := [["opt", "chain", "database"], ["opt", "chain"], ["opt", "chain", "logs"]]
    files := [(["opt", "chain", "nodekey"], [9])] }

/-- A layout with an explicitly defined nodekey (hence no configured
nodekey path). -/
def cfg5 : ChainConfig :=
  { data_dir := ["opt", "chain"]
    network_id := 1
    genesis_header := MAINNET_GENESIS_HEADER
    nodekey_explicit := some [5] }

/-- The filesystem for cfg5: directories and log file present, no nodekey
file anywhere. -/
def fs5 : FS :=
  { dirs := [["opt", "chain"], ["opt", "chain", "logs"]]
    files := [(["opt", "chain", "logs", "trinity.log"], [])] }

/-- What the bootstrap produces on cfg5 and fs5: only the database
directory is added; no file is written. -/
def fs5r : FS :=
  { dirs := [["opt", "chain", "database"], ["opt", "chain"], ["opt", "chain", "logs"]]
    files := [(["opt", "chain", "logs", "trinity.log"], [])] }

/-- A managed layout whose nodekey is loaded from an absent default path. -/
def cfgw5 : ChainConfig :=
  { data_dir := ["home", "user", ".local", "share", "trinity", "mainnet"]
    network_id := 1
    genesis_header := MAINNET_GENESIS_HEADER
    nodekey_explicit := none }

/-- The filesystem for cfgw5: base and log directories and the log file
exist, the nodekey file does not. -/
def fsw5 : FS :=
  { dirs := [cfgw5.data_dir, cfgw5.data_dir ++ ["logs"]]
    files := [(cfgw5.data_dir ++ ["logs", "trinity.log"], [])] }

/-- What the bootstrap produces on cfgw5 and fsw5: the database directory
and the fresh nodekey bytes. -/
def fsw5r : FS :=
  { dirs := [cfgw5.data_dir ++ ["database"], cfgw5.data_dir, cfgw5.data_dir ++ ["logs"]]
    files := [(cfgw5.data_dir ++ ["nodekey"], [3, 4]),
              (cfgw5.data_dir ++ ["logs", "trinity.log"], [])] }

/-- A layout whose base directory exists but whose unmanaged log directory
is missing. -/
def cfgw6 : ChainConfig :=
  { data_dir := ["var", "data"]
    network_id := 1
    genesis_header := MAINNET_GENESIS_HEADER
    nodekey_explicit := none }

/-- The filesystem for cfgw6: only the base directory exists. -/
def fsw6 : FS := { dirs := [["var", "data"]], files := [] }

/-- An empty chain database: no canonical head, nothing persisted, no
fault. -/
def db0 : AsyncChainDB := { canonical_head := none, headers := [], fault := none }

/-- A faulty chain database whose reads fail with an error other than
CanonicalHeadNotFound. -/
def dbBad : AsyncChainDB :=
  { canonical_head := none, headers := [], fault := some "corrupt" }

/-- A concrete exception raised by a hosted resource. -/
def cexExc : PyExc :=
  { ty := "ValueError", msg := "boom", payload := [], cause := none }

/-- A callable attribute that always raises cexExc with no frames. -/
def cexFn : Nat → Except (PyExc × List String) Nat :=
  fun _ => .error (cexExc, [])

/-- A resource exposing one callable attribute that is not a bound method
(inspect.ismethod is false on it). -/
def cex_obj : Resource Nat Nat :=
  fun name => if name = "close" then some (.call false cexFn) else none

/-- A resource exposing a plain value attribute and one bound method. -/
def witness_obj : Resource Nat Nat :=
  fun name =>
    if name = "count" then some (.value 7)
    else if name = "get" then some (.call true fun x => .ok (x + 1))
    else none

/-- A well-formed genesis config fixture. -/
def g8 : GenesisConfig :=
  { chainId := some "0x0401"
    difficulty := some 131072
    gasLimit := some 3141592
    nonce := some [0, 0, 0, 0, 0, 0, 0, 66]
    extraData := some [] }

/-- A genesis config with every required key absent. -/
def gEmpty : GenesisConfig :=
  { chainId := none, difficulty := none, gasLimit := none, nonce := none, extraData := none }

/-- A genesis config whose chainId is present but whose difficulty is
missing. -/
def g9w : GenesisConfig :=
  { chainId := some "0x01", difficulty := none, gasLimit := some 1,
    nonce := some [], extraData := some [] }

/-! ## Helper lemmas -/

/-- A list prefix of a path is also a prefix of any extension of the path. -/
theorem isPrefixOf_append_right :
    ∀ (r p q : List String), r.isPrefixOf p = true → r.isPrefixOf (p ++ q) = true
  | [], _, _, _ => by simp [List.isPrefixOf]
  | _ :: _, [], _, h => by simp [List.isPrefixOf] at h
  | a :: as, b :: bs, q, h => by
    simp only [List.isPrefixOf, Bool.and_eq_true] at h ⊢
    exact ⟨h.1, isPrefixOf_append_right as bs q h.2⟩

/-- A path under the managed root stays under it when extended. -/
theorem is_under_xdg_append (p q : List String)
    (h : is_under_xdg_trinity_root p = true) :
    is_under_xdg_trinity_root (p ++ q) = true :=
  isPrefixOf_append_right _ p q h

/-- A successful lookup means the key is among the keys. -/
theorem lookup_isSome_contains :
    ∀ (l : List (List String × List Nat)) (p : List String),
      (l.lookup p).isSome = true → (l.map Prod.fst).contains p = true := by
  intro l
  induction l with
  | nil => intro p h; simp [List.lookup] at h
  | cons hd tl ih =>
    intro p h
    simp only [List.lookup] at h
    by_cases hp : p = hd.1
    · simp [List.contains_cons, hp]
    · have hne : (p == hd.1) = false := beq_false_of_ne hp
      rw [hne] at h
      simp only [List.map_cons, List.contains_cons, Bool.or_eq_true]
      exact Or.inr (ih p h)

/-- Creating a directory makes its path exist. -/
theorem path_exists_mkdirp_self (fs : FS) (p : List String) :
    (fs.mkdirp p).path_exists p = true := by
  simp [FS.mkdirp, FS.path_exists, List.contains_cons]

/-- Creating a directory preserves every existing path. -/
theorem path_exists_mkdirp_mono (fs : FS) (p q : List String)
    (h : fs.path_exists q = true) : (fs.mkdirp p).path_exists q = true := by
  simp only [FS.mkdirp, FS.path_exists, List.contains_cons, Bool.or_eq_true] at h ⊢
  rcases h with h | h
  · exact Or.inl (Or.inr h)
  · exact Or.inr h

/-- Touching a file makes its path exist. -/
theorem path_exists_touch_self (fs : FS) (p : List String) :
    (fs.touch p).path_exists p = true := by
  unfold FS.touch
  by_cases h : (fs.lookupFile p).isSome = true
  · simp only [h, if_true]
    simp only [FS.path_exists, Bool.or_eq_true]
    exact Or.inr (lookup_isSome_contains fs.files p h)
  · simp only [Bool.not_eq_true] at h
    simp [h, FS.path_exists, List.contains_cons]

/-- Touching one path preserves every path's existence. -/
theorem path_exists_touch_mono' (fs : FS) (p q : List String)
    (h : fs.path_exists p = true) : (fs.touch q).path_exists p = true := by
  unfold FS.touch
  by_cases hl : (fs.lookupFile q).isSome = true
  · simp [hl, h]
  · simp only [Bool.not_eq_true] at hl
    simp only [hl, Bool.false_eq_true, if_false]
    simp only [FS.path_exists, List.map_cons, List.contains_cons, Bool.or_eq_true] at h ⊢
    rcases h with h | h
    · exact Or.inl h
    · exact Or.inr (Or.inr h)

/-- Writing a file preserves every path's existence. -/
theorem path_exists_write_mono (fs : FS) (p q : List String) (bs : List Nat)
    (h : fs.path_exists p = true) : (fs.write q bs).path_exists p = true := by
  simp only [FS.write, FS.path_exists, List.map_cons, List.contains_cons,
    Bool.or_eq_true] at h ⊢
  rcases h with h | h
  · exact Or.inl h
  · exact Or.inr (Or.inr h)

/-- Creating a directory leaves the files alone. -/
theorem lookupFile_mkdirp (fs : FS) (p q : List String) :
    (fs.mkdirp p).lookupFile q = fs.lookupFile q := rfl

/-- Touching one path leaves the contents of every other path alone. -/
theorem lookupFile_touch_ne (fs : FS) (p q : List String) (h : q ≠ p) :
    (fs.touch p).lookupFile q = fs.lookupFile q := by
  unfold FS.touch
  by_cases hl : (fs.lookupFile p).isSome = true
  · simp [hl]
  · simp only [Bool.not_eq_true] at hl
    simp only [hl, Bool.false_eq_true, if_false]
    simp [FS.lookupFile, List.lookup, beq_false_of_ne h]

/-- Writing one path leaves the contents of every other path alone. -/
theorem lookupFile_write_ne (fs : FS) (p q : List String) (bs : List Nat) (h : q ≠ p) :
    (fs.write p bs).lookupFile q = fs.lookupFile q := by
  simp [FS.write, FS.lookupFile, List.lookup, beq_false_of_ne h]

/-- Writing a path stores exactly the written bytes there. -/
theorem lookupFile_write_self (fs : FS) (p : List String) (bs : List Nat) :
    (fs.write p bs).lookupFile p = some bs := by
  simp [FS.write, FS.lookupFile, List.lookup]

/-- The default nodekey location differs from the log file location. -/
theorem nodekey_path_ne_logfile (d : List String) :
    d ++ ["nodekey"] ≠ d ++ ["logs", "trinity.log"] := by
  intro h
  have h2 := List.append_cancel_left h
  simp at h2

/-- The first bootstrap step never changes the files. -/
theorem init_base_dir_files (cfg : ChainConfig) (fs fs1 : FS)
    (h : init_base_dir cfg fs = .ok fs1) : fs1.files = fs.files := by
  unfold init_base_dir at h
  split at h
  · cases h; rfl
  · split at h
    · cases h
    · cases h; rfl

/-- The second bootstrap step touches at most the log file. -/
theorem init_log_dir_lookup_ne (cfg : ChainConfig) (fs fs1 : FS) (q : List String)
    (h : init_log_dir cfg fs = .ok fs1) (hq : q ≠ cfg.logfile_path) :
    fs1.lookupFile q = fs.lookupFile q := by
  unfold init_log_dir at h
  split at h
  · cases h
    rw [lookupFile_touch_ne _ _ _ hq, lookupFile_mkdirp]
  · split at h
    · cases h
    · cases h; rfl

/-- Equal file tables give equal lookups. -/
theorem lookupFile_congr (fsa fsb : FS) (q : List String) (h : fsa.files = fsb.files) :
    fsa.lookupFile q = fsb.lookupFile q := by
  unfold FS.lookupFile
  rw [h]

/-- The loaded nodekey only depends on the file at the default nodekey
location. -/
theorem nodekey_eq_of_lookup (cfg : ChainConfig) (fsa fsb : FS)
    (h : fsa.lookupFile (cfg.data_dir ++ ["nodekey"]) =
         fsb.lookupFile (cfg.data_dir ++ ["nodekey"])) :
    cfg.nodekey fsa = cfg.nodekey fsb := by
  unfold ChainConfig.nodekey ChainConfig.nodekey_path
  cases cfg.nodekey_explicit <;> simp [h]

/-- A configured nodekey path is the default location under the base
directory. -/
theorem nodekey_path_eq (cfg : ChainConfig) (p : List String)
    (h : cfg.nodekey_path = some p) : p = cfg.data_dir ++ ["nodekey"] := by
  unfold ChainConfig.nodekey_path at h
  cases hx : cfg.nodekey_explicit with
  | some k => rw [hx] at h; cases h
  | none => rw [hx] at h; exact (Option.some.inj h).symm

/-- The final bootstrap steps preserve every existing path. -/
theorem init_rest_path_mono (cfg : ChainConfig) (key : List Nat) (fs : FS)
    (p : List String) (h : fs.path_exists p = true) :
    (init_rest cfg key fs).path_exists p = true := by
  have h3 : (fs.mkdirp cfg.database_dir).path_exists p = true :=
    path_exists_mkdirp_mono _ _ _ h
  unfold init_rest
  split
  · split
    · exact path_exists_write_mono _ _ _ _ h3
    · exact h3
  · exact h3

/-- The final bootstrap steps never touch the log file. -/
theorem init_rest_lookup_logfile (cfg : ChainConfig) (key : List Nat) (fs : FS) :
    (init_rest cfg key fs).lookupFile cfg.logfile_path = fs.lookupFile cfg.logfile_path := by
  unfold init_rest
  split
  · split
    case _ p hp =>
      have hpe := nodekey_path_eq cfg p hp
      have hne : cfg.logfile_path ≠ p := by
        rw [hpe]
        unfold ChainConfig.logfile_path
        intro hh
        exact nodekey_path_ne_logfile _ hh.symm
      rw [lookupFile_write_ne _ _ _ _ hne, lookupFile_mkdirp]
    case _ => exact lookupFile_mkdirp _ _ _
  · exact lookupFile_mkdirp _ _ _

/-! ## Claim theorems -/

/-- C8: the claim promises that on a config with the required keys,
get_genesis_header returns the header built from the supplied fields and
the fixed defaults together with the decoded chainId — and so does the
function's own docstring; but the body's unbound constants reference makes
every call raise NameError once the difficulty, extraData and gasLimit
lookups have succeeded, so on the concrete well-formed config g8 the call
fails with NameError on constants, and no input whatsoever produces a
header. -/
theorem get_genesis_header_name_error :
    get_genesis_header g8 = .error (.nameError "constants") ∧
    ∀ (g : GenesisConfig) (r : BlockHeader × List Nat), get_genesis_header g ≠ .ok r := by
  constructor
  · rfl
  · intro g r h
    cases hd : g.difficulty with
    | none => simp [get_genesis_header, hd] at h
    | some d =>
      cases he : g.extraData with
      | none => simp [get_genesis_header, hd, he] at h
      | some ed =>
        cases hg : g.gasLimit with
        | none => simp [get_genesis_header, hd, he, hg] at h
        | some gl => simp [get_genesis_header, hd, he, hg] at h

/-- C9 as amended: on every genesis config whose chainId is present and
whose difficulty is absent, validation fails with the error naming
difficulty, independent of the remaining keys. -/
theorem is_valid_missing_difficulty (g : GenesisConfig) (c : String)
    (hc : g.chainId = some c) (hd : g.difficulty = none) :
    is_valid_genesis_header g =
      .error ⟨"genesis config missing required \x27difficulty\x27"⟩ := by
  simp [is_valid_genesis_header, hc, hd]

/-- C9 witness: the concrete config g9w fails naming difficulty. -/
theorem is_valid_missing_difficulty_witness :
    is_valid_genesis_header g9w =
      .error ⟨"genesis config missing required \x27difficulty\x27"⟩ :=
  is_valid_missing_difficulty g9w "0x01" rfl rfl

/-- C9 counterexample: a config missing difficulty and chainId fails
naming chainId, not difficulty — the check is ordered, so the failure does
not name difficulty regardless of the other keys. -/
theorem is_valid_missing_difficulty_cex :
    gEmpty.difficulty = none ∧
    is_valid_genesis_header gEmpty =
      .error ⟨"genesis config missing required \x27chainId\x27"⟩ ∧
    (⟨"genesis config missing required \x27chainId\x27"⟩ : ValidationError) ≠
      ⟨"genesis config missing required \x27difficulty\x27"⟩ :=
  ⟨rfl, rfl, by decide⟩

/-- C3: serializing the transportable container and deserializing it
yields an exception of the original type with the original message, whose
cause is the RemoteTraceback marker holding exactly the trace text the
container recorded, which is the formatted remote trace. -/
theorem chained_exception_roundtrip (e : PyExc) (frames : List String) :
    (pickle_roundtrip (ChainedExceptionWithTraceback.make e frames)).ty = e.ty ∧
    (pickle_roundtrip (ChainedExceptionWithTraceback.make e frames)).msg = e.msg ∧
    (pickle_roundtrip (ChainedExceptionWithTraceback.make e frames)).cause =
      some (.remoteTraceback ((ChainedExceptionWithTraceback.make e frames).tb)) ∧
    (ChainedExceptionWithTraceback.make e frames).tb =
      "\n\"\"\"\n" ++ String.join (format_exception e.ty e.msg frames) ++ "\"\"\"" :=
  ⟨rfl, rfl, rfl, rfl⟩

/-- C10: rebuilding a forwarded exception modifies only its cause field —
the result is the embedded exception itself with the cause set to the
RemoteTraceback marker and type, message and every payload attribute
unchanged. -/
theorem rebuild_exc_frame (e : PyExc) (tb : String) (c : ChainedExceptionWithTraceback) :
    rebuild_exc e tb = { e with cause := some (.remoteTraceback tb) } ∧
    (rebuild_exc e tb).ty = e.ty ∧ (rebuild_exc e tb).msg = e.msg ∧
    (rebuild_exc e tb).payload = e.payload ∧
    pickle_roundtrip c = { c.exc with cause := some (.remoteTraceback c.tb) } :=
  ⟨rfl, rfl, rfl, rfl, rfl⟩

/-- C4 as amended: reading a non-callable attribute through the adapter
returns it unchanged; reading a bound-method attribute returns the wrapper
that passes a normal return through unchanged and re-raises a raised
exception as the transportable container built from the exception and its
formatted trace; a callable attribute that is not a bound method is
returned unchanged, not wrapped. -/
theorem traceback_recorder_spec {α β : Type} (obj : Resource α β) (name : String) :
    (∀ v, obj name = some (.value v) →
       TracebackRecorder.getattr obj name = some (.value v)) ∧
    (∀ f, obj name = some (.call true f) →
       TracebackRecorder.getattr obj name = some (.wrapped (record_traceback_on_error f)) ∧
       (∀ x v, f x = .ok v → record_traceback_on_error f x = .ok v) ∧
       (∀ x e fr, f x = .error (e, fr) →
          record_traceback_on_error f x =
            .error (ChainedExceptionWithTraceback.make e fr))) ∧
    (∀ f, obj name = some (.call false f) →
       TracebackRecorder.getattr obj name = some (.rawCall f)) := by
  refine ⟨?_, ?_, ?_⟩
  · intro v h
    simp [TracebackRecorder.getattr, h]
  · intro f h
    refine ⟨by simp [TracebackRecorder.getattr, h], ?_, ?_⟩
    · intro x v hx
      simp [record_traceback_on_error, hx]
    · intro x e fr hx
      simp [record_traceback_on_error, hx]
  · intro f h
    simp [TracebackRecorder.getattr, h]

/-- C4 witness: a plain value attribute passes through the adapter
unchanged. -/
theorem traceback_recorder_spec_witness :
    TracebackRecorder.getattr witness_obj "count" = some (.value 7) :=
  (traceback_recorder_spec witness_obj "count").1 7 rfl

/-- C4 counterexample: a callable attribute that is not a bound method is
returned by the adapter as the raw callable — not as a wrapper — so its
raise stays an ordinary exception instead of a transportable container. -/
theorem traceback_recorder_cex :
    TracebackRecorder.getattr cex_obj "close" = some (.rawCall cexFn) ∧
    cexFn 0 = .error (cexExc, []) ∧
    TracebackRecorder.getattr cex_obj "close" ≠
      some (.wrapped (record_traceback_on_error cexFn)) := by
  refine ⟨rfl, rfl, ?_⟩
  intro h
  rw [show TracebackRecorder.getattr cex_obj "close" = some (.rawCall cexFn) from rfl] at h
  exact GotAttr.noConfusion (Option.some.inj h)

/-- C1: on a chain database with no canonical head, initialize_database
persists exactly one genesis header selected by the network identity —
the fixed mainnet header for the mainnet id, the fixed ropsten header for
the ropsten id, and otherwise the custom header carried by the private
configuration (persist_header appends exactly one header); on a database
that already has a canonical head a second call performs no persist at
all. -/
theorem initialize_database_spec (cfg : ChainConfig) (db : AsyncChainDB)
    (hfault : db.fault = none) :
    (db.canonical_head = none →
      (cfg.network_id = MAINNET_NETWORK_ID →
        initialize_database cfg db = .ok (db.persist_header MAINNET_GENESIS_HEADER)) ∧
      (cfg.network_id = ROPSTEN_NETWORK_ID →
        initialize_database cfg db = .ok (db.persist_header ROPSTEN_GENESIS_HEADER)) ∧
      (cfg.network_id ≠ MAINNET_NETWORK_ID → cfg.network_id ≠ ROPSTEN_NETWORK_ID →
        initialize_database cfg db = .ok (db.persist_header cfg.genesis_header)) ∧
      (∀ h, (db.persist_header h).headers = db.headers ++ [h])) ∧
    (∀ hd, db.canonical_head = some hd → initialize_database cfg db = .ok db) := by
  constructor
  · intro hhead
    have hget : db.get_canonical_head = .error .canonicalHeadNotFound := by
      simp [AsyncChainDB.get_canonical_head, hfault, hhead]
    refine ⟨?_, ?_, ?_, fun h => rfl⟩
    · intro hm
      simp [initialize_database, hget, hm, MAINNET_NETWORK_ID, ROPSTEN_NETWORK_ID]
    · intro hr
      simp [initialize_database, hget, hr]
    · intro hm hr
      simp [initialize_database, hget, hm, hr]
  · intro hd hhead
    have hget : db.get_canonical_head = .ok hd := by
      simp [AsyncChainDB.get_canonical_head, hfault, hhead]
    simp [initialize_database, hget]

/-- C1 witness: the empty database under the mainnet identity gets exactly
the fixed mainnet genesis header persisted. -/
theorem initialize_database_spec_witness :
    initialize_database cfg7 db0 = .ok (db0.persist_header MAINNET_GENESIS_HEADER) :=
  ((initialize_database_spec cfg7 db0 rfl).1 rfl).1 rfl

/-- C2: is_database_initialized returns true whenever reading the
canonical head succeeds, returns false exactly on CanonicalHeadNotFound,
propagates every other read failure unchanged, and initialize_database
never lets CanonicalHeadNotFound reach its caller. -/
theorem is_database_initialized_spec (cfg : ChainConfig) (db : AsyncChainDB) :
    (∀ h, db.get_canonical_head = .ok h → is_database_initialized db = .ok true) ∧
    (db.get_canonical_head = .error .canonicalHeadNotFound →
       is_database_initialized db = .ok false) ∧
    (∀ s, db.get_canonical_head = .error (.other s) →
       is_database_initialized db = .error (.other s)) ∧
    initialize_database cfg db ≠ .error .canonicalHeadNotFound := by
  refine ⟨?_, ?_, ?_, ?_⟩
  · intro h hh
    simp [is_database_initialized, hh]
  · intro hh
    simp [is_database_initialized, hh]
  · intro s hh
    simp [is_database_initialized, hh]
  · intro hbad
    cases hget : db.get_canonical_head with
    | ok h => simp [initialize_database, hget] at hbad
    | error e =>
      cases e with
      | canonicalHeadNotFound =>
        simp only [initialize_database, hget] at hbad
        split at hbad
        · simp at hbad
        · split at hbad <;> simp at hbad
      | other s => simp [initialize_database, hget] at hbad

/-- C2 witness: the empty database reads back as uninitialized. -/
theorem is_database_initialized_spec_witness :
    is_database_initialized db0 = .ok false :=
  (is_database_initialized_spec cfg7 db0).2.1 rfl

/-- C7: a missing base data directory that does not lie under the managed
root makes the bootstrap fail with MissingPath naming that path before any
later step; a missing base data directory under the managed root is
created and the bootstrap does not fail. -/
theorem initialize_data_dir_base_dir_rule (cfg : ChainConfig) (key : List Nat) (fs : FS)
    (hmiss : fs.path_exists cfg.data_dir = false) :
    (is_under_xdg_trinity_root cfg.data_dir = false →
       initialize_data_dir cfg key fs =
         .error ⟨"The base chain directory provided does not exist", cfg.data_dir⟩) ∧
    (is_under_xdg_trinity_root cfg.data_dir = true →
       ∃ fsr, initialize_data_dir cfg key fs = .ok fsr ∧
         fsr.path_exists cfg.data_dir = true) := by
  constructor
  · intro hout
    simp [initialize_data_dir, init_base_dir, hmiss, hout]
  · intro hin
    have hbase : init_base_dir cfg fs = .ok (fs.mkdirp cfg.data_dir) := by
      simp [init_base_dir, hmiss, hin]
    have hlogunder : is_under_xdg_trinity_root (cfg.data_dir ++ ["logs"]) = true :=
      is_under_xdg_append cfg.data_dir ["logs"] hin
    have hex1 : (fs.mkdirp cfg.data_dir).path_exists cfg.data_dir = true :=
      path_exists_mkdirp_self fs _
    obtain ⟨fs2, hlog, hex2⟩ :
        ∃ fs2, init_log_dir cfg (fs.mkdirp cfg.data_dir) = .ok fs2 ∧
          fs2.path_exists cfg.data_dir = true := by
      by_cases hl : (fs.mkdirp cfg.data_dir).path_exists cfg.logdir_path = true
      · exact ⟨fs.mkdirp cfg.data_dir, by simp [init_log_dir, hl], hex1⟩
      · simp only [Bool.not_eq_true] at hl
        simp only [ChainConfig.logdir_path] at hl
        refine ⟨((fs.mkdirp cfg.data_dir).mkdirp cfg.logdir_path).touch cfg.logfile_path,
          by simp [init_log_dir, ChainConfig.logdir_path, hl, hlogunder], ?_⟩
        exact path_exists_touch_mono' _ _ _ (path_exists_mkdirp_mono _ _ _ hex1)
    refine ⟨init_rest cfg key fs2, ?_, ?_⟩
    · simp [initialize_data_dir, hbase, hlog]
    · exact init_rest_path_mono cfg key fs2 _ hex2

/-- C7 witness: a missing unmanaged base directory aborts the bootstrap
with MissingPath naming it. -/
theorem initialize_data_dir_base_dir_rule_witness :
    initialize_data_dir cfg7 [1] fs0 =
      .error ⟨"The base chain directory provided does not exist", ["srv", "node"]⟩ :=
  (initialize_data_dir_base_dir_rule cfg7 [1] fs0 rfl).1 rfl

/-- C6 as amended: the managed-root rule applies to the log directory — a
missing unmanaged log directory is a MissingPath failure naming it, and a
missing managed log directory is created together with an empty log file;
but when the log directory pre-exists, the log file is not created: the
bootstrap succeeds leaving the log file entry exactly as it was, absent or
not. -/
theorem initialize_data_dir_logfile_rule (cfg : ChainConfig) (key : List Nat) (fs : FS)
    (hbase : fs.path_exists cfg.data_dir = true) :
    (fs.path_exists cfg.logdir_path = false →
      is_under_xdg_trinity_root cfg.logdir_path = false →
      initialize_data_dir cfg key fs =
        .error ⟨"The base logging directory provided does not exist", cfg.logdir_path⟩) ∧
    (fs.path_exists cfg.logdir_path = false →
      is_under_xdg_trinity_root cfg.logdir_path = true →
      ∃ fsr, initialize_data_dir cfg key fs = .ok fsr ∧
        fsr.path_exists cfg.logfile_path = true) ∧
    (fs.path_exists cfg.logdir_path = true →
      ∃ fsr, initialize_data_dir cfg key fs = .ok fsr ∧
        fsr.lookupFile cfg.logfile_path = fs.lookupFile cfg.logfile_path) := by
  have hb : init_base_dir cfg fs = .ok fs := by
    simp [init_base_dir, hbase]
  refine ⟨?_, ?_, ?_⟩
  · intro hmiss hout
    simp [initialize_data_dir, hb, init_log_dir, hmiss, hout]
  · intro hmiss hin
    have hlog : init_log_dir cfg fs =
        .ok ((fs.mkdirp cfg.logdir_path).touch cfg.logfile_path) := by
      simp [init_log_dir, hmiss, hin]
    refine ⟨init_rest cfg key ((fs.mkdirp cfg.logdir_path).touch cfg.logfile_path), ?_, ?_⟩
    · simp [initialize_data_dir, hb, hlog]
    · exact init_rest_path_mono _ _ _ _ (path_exists_touch_self _ _)
  · intro hexist
    have hlog : init_log_dir cfg fs = .ok fs := by
      simp [init_log_dir, hexist]
    refine ⟨init_rest cfg key fs, ?_, ?_⟩
    · simp [initialize_data_dir, hb, hlog]
    · exact init_rest_lookup_logfile cfg key fs

/-- C6 witness: a missing unmanaged log directory aborts the bootstrap
with MissingPath naming it. -/
theorem initialize_data_dir_logfile_rule_witness :
    initialize_data_dir cfgw6 [1] fsw6 =
      .error ⟨"The base logging directory provided does not exist", ["var", "data", "logs"]⟩ :=
  (initialize_data_dir_logfile_rule cfgw6 [1] fsw6 rfl).1 rfl rfl

/-- C6 counterexample: on a layout whose log directory pre-exists and
whose log file is absent, the bootstrap returns successfully and the log
file still does not exist. -/
theorem initialize_data_dir_logfile_cex :
    initialize_data_dir cfg6 [9] fs6 = .ok fs6r ∧
    fs6r.path_exists cfg6.logfile_path = false :=
  ⟨rfl, rfl⟩

/-- C5 as amended: whenever the bootstrap returns successfully, a fresh
node identity key was generated and persisted to the default nodekey
location exactly when the loaded nodekey was absent — no explicit key
configured and no file at the configured path; whenever the nodekey
already exists, it is not regenerated and its bytes are unchanged. -/
theorem nodekey_generation_rule (cfg : ChainConfig) (key : List Nat) (fs fsr : FS)
    (hok : initialize_data_dir cfg key fs = .ok fsr) :
    (cfg.nodekey fs = none →
       fsr.lookupFile (cfg.data_dir ++ ["nodekey"]) = some key) ∧
    (∀ k, cfg.nodekey fs = some k →
       cfg.nodekey fsr = some k ∧
       fsr.lookupFile (cfg.data_dir ++ ["nodekey"]) =
         fs.lookupFile (cfg.data_dir ++ ["nodekey"])) := by
  unfold initialize_data_dir at hok
  cases hb : init_base_dir cfg fs with
  | error e => simp [hb] at hok
  | ok fs1 =>
    simp only [hb] at hok
    cases hl : init_log_dir cfg fs1 with
    | error e => simp [hl] at hok
    | ok fs2 =>
      simp only [hl] at hok
      have hfsr : fsr = init_rest cfg key fs2 := (Except.ok.inj hok).symm
      have hlu2 : fs2.lookupFile (cfg.data_dir ++ ["nodekey"]) =
          fs.lookupFile (cfg.data_dir ++ ["nodekey"]) := by
        rw [init_log_dir_lookup_ne cfg fs1 fs2 _ hl (by
          unfold ChainConfig.logfile_path
          exact nodekey_path_ne_logfile cfg.data_dir)]
        exact lookupFile_congr fs1 fs _ (init_base_dir_files cfg fs fs1 hb)
      have hlu3 : (fs2.mkdirp cfg.database_dir).lookupFile (cfg.data_dir ++ ["nodekey"]) =
          fs.lookupFile (cfg.data_dir ++ ["nodekey"]) := by
        rw [lookupFile_mkdirp]; exact hlu2
      have hnk3 : cfg.nodekey (fs2.mkdirp cfg.database_dir) = cfg.nodekey fs :=
        nodekey_eq_of_lookup cfg _ fs hlu3
      constructor
      · intro hnone
        have hexp : cfg.nodekey_explicit = none := by
          cases hx : cfg.nodekey_explicit with
          | some k =>
            rw [ChainConfig.nodekey, hx] at hnone
            cases hnone
          | none => rfl
        have hpath : cfg.nodekey_path = some (cfg.data_dir ++ ["nodekey"]) := by
          rw [ChainConfig.nodekey_path, hexp]
        rw [hfsr]
        unfold init_rest
        rw [hnk3, hnone, hpath]
        simp only [Option.isNone_none, if_true]
        exact lookupFile_write_self _ _ _
      · intro k hsome
        rw [hfsr]
        unfold init_rest
        rw [hnk3, hsome]
        simp only [Option.isNone_some, Bool.false_eq_true, if_false]
        constructor
        · rw [nodekey_eq_of_lookup cfg _ fs hlu3, hsome]
        · exact hlu3

/-- C5 witness: on a layout with a configured path and no nodekey file,
the bootstrap persists the fresh key bytes at the default location. -/
theorem nodekey_generation_rule_witness :
    fsw5r.lookupFile (cfgw5.data_dir ++ ["nodekey"]) = some [3, 4] :=
  (nodekey_generation_rule cfgw5 [3, 4] fsw5 fsw5r rfl).1 rfl

/-- C5 counterexample: on a layout with an explicitly defined nodekey —
hence no configured nodekey path, the condition under which the claim
requires a fresh key to be generated and persisted — the bootstrap
succeeds without writing any file at all. -/
theorem nodekey_generation_cex :
    cfg5.nodekey_path = none ∧
    initialize_data_dir cfg5 [9] fs5 = .ok fs5r ∧
    fs5r.files = fs5.files :=
  ⟨rfl, rfl, rfl⟩
